import Mathlib

/-!
Verification development for the Azure Service Bus queue-consumption blocks
(`blocks/serviceBusQueue.ts` and the two variants of
`blocks/serviceBusSubscription.ts`).

The source contains two subscription variants:

* the connection-string variant (`serviceBusSubscription.ts` lines 1-264),
  embedded here in namespace `ConnStr`: it keeps `lastCheckTime` /
  `lastMessageReceivedTime` in the KV store and its `parseMessage` attempts
  `JSON.parse` on the decoded body with a raw-string fallback;
* the token-auth variant (lines 265-484), embedded in namespace `TokenAuth`:
  it has no KV state, clamps `maxMessages` with `Math.min(_, 2047)`, rethrows
  poll errors, and its `parseMessage` performs no JSON parsing (it only
  decodes Buffer bodies to UTF-8 strings).

The on-demand queue reader's normalizer (`serviceBusQueue.ts` lines 140-171,
textually identical to the `ConnStr` one) lives in namespace `Queue`.

Effectful operations (`onSync`, `onTrigger`) are embedded as pure functions
from an environment oracle `Env` (which provider calls succeed, which
messages arrive, oracle-provided timestamps) to a result carrying an event
trace, mirroring the source's control flow statement by statement.  Host
facilities the source delegates to (`events.emit`, `kv.block.set`) are
modelled as reliable, following the spec's collaborator contracts
(fire-and-forget emission sink, last-write-wins KV store).
-/

/-- A JSON value.  JSON numbers are modelled as integers: fractional and
exponent literals are outside the embedding (floating point is out of
scope), so the model parser treats them as parse failures. -/
inductive JsonVal where
  | null
  | bool (b : Bool)
  | num (n : Int)
  | str (s : String)
  | arr (elems : List JsonVal)
  | obj (fields : List (String × JsonVal))

namespace Json

/-- Skip JSON whitespace (space, tab, newline, carriage return). -/
def skipWs : List Char → List Char
  | c :: cs =>
    if c = ' ' ∨ c = '\t' ∨ c = '\n' ∨ c = '\r' then skipWs cs else c :: cs
  | [] => []

/-- Value of a hexadecimal digit, if the character is one. -/
def hexVal (c : Char) : Option Nat :=
  if '0' ≤ c ∧ c ≤ '9' then some (c.toNat - 48)
  else if 'a' ≤ c ∧ c ≤ 'f' then some (c.toNat - 87)
  else if 'A' ≤ c ∧ c ≤ 'F' then some (c.toNat - 55)
  else none

/-- Parse the remainder of a JSON string literal (the opening quote already
consumed), handling the JSON escape sequences.  Surrogate-pair recombination
is not modelled: each escape yields one scalar via `Char.ofNat`. -/
def parseStringChars : List Char → List Char → Option (String × List Char)
  | [], _ => none
  | '"' :: rest, acc => some (String.mk acc.reverse, rest)
  | '\\' :: cs, acc =>
    match cs with
    | 'n' :: rest => parseStringChars rest ('\n' :: acc)
    | 't' :: rest => parseStringChars rest ('\t' :: acc)
    | 'r' :: rest => parseStringChars rest ('\r' :: acc)
    | 'b' :: rest => parseStringChars rest (Char.ofNat 8 :: acc)
    | 'f' :: rest => parseStringChars rest (Char.ofNat 12 :: acc)
    | '"' :: rest => parseStringChars rest ('"' :: acc)
    | '\\' :: rest => parseStringChars rest ('\\' :: acc)
    | '/' :: rest => parseStringChars rest ('/' :: acc)
    | 'u' :: h1 :: h2 :: h3 :: h4 :: rest =>
      match hexVal h1, hexVal h2, hexVal h3, hexVal h4 with
      | some a, some b, some c, some d =>
        parseStringChars rest (Char.ofNat (((a * 16 + b) * 16 + c) * 16 + d) :: acc)
      | _, _, _, _ => none
    | _ => none
  | c :: rest, acc => parseStringChars rest (c :: acc)

/-- Take a maximal run of decimal digits. -/
def takeDigits : List Char → List Char × List Char
  | c :: cs =>
    if c.isDigit then
      let (ds, rest) := takeDigits cs
      (c :: ds, rest)
    else ([], c :: cs)
  | [] => ([], [])

/-- Numeric value of a digit run. -/
def digitsToNat (ds : List Char) : Nat :=
  ds.foldl (fun a c => a * 10 + (c.toNat - 48)) 0

/-- Parse a JSON integer literal starting at `cs` (no leading sign),
rejecting leading zeros as the JSON grammar does. -/
def parseNatLit (cs : List Char) : Option (Nat × List Char) :=
  match takeDigits cs with
  | ([], _) => none
  | ('0' :: _ :: _, _) => none
  | (ds, rest) => some (digitsToNat ds, rest)

mutual

/-- Fueled recursive-descent parser for a JSON value. -/
def parseJsonVal : Nat → List Char → Option (JsonVal × List Char)
  | 0, _ => none
  | fuel + 1, cs =>
    match skipWs cs with
    | 'n' :: 'u' :: 'l' :: 'l' :: rest => some (.null, rest)
    | 't' :: 'r' :: 'u' :: 'e' :: rest => some (.bool true, rest)
    | 'f' :: 'a' :: 'l' :: 's' :: 'e' :: rest => some (.bool false, rest)
    | '"' :: rest =>
      match parseStringChars rest [] with
      | some (s, rest2) => some (.str s, rest2)
      | none => none
    | '[' :: rest =>
      (match skipWs rest with
       | ']' :: rest2 => some (.arr [], rest2)
       | cs2 => parseJsonArrElems fuel cs2 [])
    | '\x7b' :: rest =>
      (match skipWs rest with
       | '\x7d' :: rest2 => some (.obj [], rest2)
       | cs2 => parseJsonObjMembers fuel cs2 [])
    | '-' :: rest =>
      match parseNatLit rest with
      | some (n, rest2) => some (.num (-(n : Int)), rest2)
      | none => none
    | c :: rest =>
      if c.isDigit then
        match parseNatLit (c :: rest) with
        | some (n, rest2) => some (.num (n : Int), rest2)
        | none => none
      else none
    | [] => none

/-- Parse the elements of a non-empty JSON array (after the opening
bracket, whitespace skipped). -/
def parseJsonArrElems : Nat → List Char → List JsonVal → Option (JsonVal × List Char)
  | 0, _, _ => none
  | fuel + 1, cs, acc =>
    match parseJsonVal fuel cs with
    | none => none
    | some (v, rest) =>
      match skipWs rest with
      | ',' :: rest2 => parseJsonArrElems fuel rest2 (v :: acc)
      | ']' :: rest2 => some (.arr (v :: acc).reverse, rest2)
      | _ => none

/-- Parse the members of a non-empty JSON object (after the opening brace,
whitespace skipped). -/
def parseJsonObjMembers : Nat → List Char → List (String × JsonVal) → Option (JsonVal × List Char)
  | 0, _, _ => none
  | fuel + 1, cs, acc =>
    match skipWs cs with
    | '"' :: rest =>
      (match parseStringChars rest [] with
       | none => none
       | some (k, rest2) =>
         match skipWs rest2 with
         | ':' :: rest3 =>
           (match parseJsonVal fuel rest3 with
            | none => none
            | some (v, rest4) =>
              match skipWs rest4 with
              | ',' :: rest5 => parseJsonObjMembers fuel rest5 ((k, v) :: acc)
              | '\x7d' :: rest5 => some (.obj ((k, v) :: acc).reverse, rest5)
              | _ => none)
         | _ => none)
    | _ => none

end

/-- Model of `JSON.parse`: `some v` when the whole input is a valid JSON
text, `none` when parsing fails (the JS call would throw). -/
def jsonParse (s : String) : Option JsonVal :=
  match parseJsonVal (2 * s.length + 2) s.data with
  | some (v, rest) => if (skipWs rest).isEmpty then some v else none
  | none => none

/-- JSON string-character escaping used by the serializer. -/
def escapeChar (c : Char) : List Char :=
  if c = '"' then ['\\', '"']
  else if c = '\\' then ['\\', '\\']
  else if c = '\n' then ['\\', 'n']
  else if c = '\t' then ['\\', 't']
  else if c = '\r' then ['\\', 'r']
  else [c]

mutual

/-- Model of `JSON.stringify` on a structured value. -/
def jsonStringify : JsonVal → String
  | .null => "null"
  | .bool true => "true"
  | .bool false => "false"
  | .num n => toString n
  | .str s => "\"" ++ String.mk (s.data.map escapeChar).flatten ++ "\""
  | .arr elems => "[" ++ stringifyElems elems ++ "]"
  | .obj fields => "\x7b" ++ stringifyMembers fields ++ "\x7d"

/-- Comma-separated serialization of array elements. -/
def stringifyElems : List JsonVal → String
  | [] => ""
  | [v] => jsonStringify v
  | v :: vs => jsonStringify v ++ "," ++ stringifyElems vs

/-- Comma-separated serialization of object members. -/
def stringifyMembers : List (String × JsonVal) → String
  | [] => ""
  | [(k, v)] => "\"" ++ String.mk (k.data.map escapeChar).flatten ++ "\":" ++ jsonStringify v
  | (k, v) :: fs =>
    "\"" ++ String.mk (k.data.map escapeChar).flatten ++ "\":" ++ jsonStringify v
      ++ "," ++ stringifyMembers fs

end

end Json

/-- Raw message body as delivered by the provider: a string, a Buffer
(modelled by the string its bytes decode to as UTF-8), or a structured
value. -/
inductive RawBody where
  | str (s : String)
  | buf (decoded : String)
  | structured (v : JsonVal)

/-- Provider-supplied raw message (`ServiceBusReceivedMessage`).  Optional
provider metadata is modelled with `Option`; `enqueuedTimeUtc` is modelled
by its ISO-8601 rendering, which is all the code uses of it. -/
structure ServiceBusReceivedMessage where
  body : RawBody
  messageId : Option String
  enqueuedTimeUtc : Option String
  sequenceNumber : Option Int
  contentType : Option String
  correlationId : Option String
  applicationProperties : Option (List (String × JsonVal))

/-- Output event record built by `parseMessage`.  The token-auth variant
emits no `rawBody` key, modelled as `none`. -/
structure NormalizedMessage where
  body : JsonVal
  rawBody : Option String
  messageId : String
  enqueuedTime : String
  sequenceNumber : String
  contentType : String
  correlationId : String
  applicationProperties : List (String × JsonVal)

/-- Decode the raw body to a string, as in the JSON-parsing `parseMessage`:
pass a string through, decode a Buffer as UTF-8, otherwise stringify. -/
def rawBodyString : RawBody → String
  | .str s => s
  | .buf decoded => decoded
  | .structured v => Json.jsonStringify v

/-- Block configuration; absent optional numbers are `none`. -/
structure Config where
  queueName : String
  maxMessages : Option Int
  receiveTimeoutSeconds : Option Int

/-- JavaScript `x || d` on an optional number: both `undefined` and the
falsy `0` fall back to the default. -/
def jsOr : Option Int → Int → Int
  | none, d => d
  | some n, d => if n = 0 then d else n

/-- Block lifecycle status (`HealthStatus`). -/
inductive Status where
  | ready
  | failed
  | drained
deriving DecidableEq

/-- Poll cycle outcome: `error` means the catch handler ran. -/
inductive Outcome where
  | ok
  | error
deriving DecidableEq

/-- Persisted consumer state in the block KV store. -/
structure KVState where
  lastCheckTime : Option String
  lastMessageReceivedTime : Option String
deriving DecidableEq

/-- Observable effects of one operation, in program order. -/
inductive Ev where
  | openClient
  | closeClient
  | closeFailLogged
  | closeReceiver
  | peek (count : Nat)
  | receive (count : Int)
  | kvSetCheck (value : String)
  | kvSetReceived (value : String)
  | kvGet
  | normalize (idx : Nat)
  | complete (idx : Nat)
  | emit (msg : NormalizedMessage)
  | requestSync
  | logWarning

/-- Environment oracle for one operation: which provider calls succeed,
what they return, and the diagnostic message of whichever call raises.
`ackOk i` tells whether `completeMessage` succeeds on the i-th received
message (0-based). -/
structure Env where
  newClientOk : Bool
  createReceiverOk : Bool
  peekOk : Bool
  peeked : List ServiceBusReceivedMessage
  receiveOk : Bool
  msgs : List ServiceBusReceivedMessage
  ackOk : Nat → Bool
  receiverCloseOk : Bool
  clientCloseTryOk : Bool
  clientCloseOk : Bool
  kvOk : Bool
  errorMessage : String

/-- Trace of the guaranteed-release `finally` block: the client is closed,
and a close failure is caught and logged (never rethrown). -/
def finallyTrace (env : Env) : List Ev :=
  Ev.closeClient :: (if env.clientCloseOk then [] else [Ev.closeFailLogged])

/-- Count trace events satisfying a predicate. -/
def countEv (p : Ev → Bool) : List Ev → Nat
  | [] => 0
  | e :: tr => (if p e then 1 else 0) + countEv p tr

/-- Messages handed to the emission sink, in order. -/
def emittedOf : List Ev → List NormalizedMessage
  | [] => []
  | Ev.emit m :: tr => m :: emittedOf tr
  | _ :: tr => emittedOf tr

/-- Arguments of the `receive` calls in a trace, in order. -/
def receiveArgsOf : List Ev → List Int
  | [] => []
  | Ev.receive n :: tr => n :: receiveArgsOf tr
  | _ :: tr => receiveArgsOf tr

/-- Whether the trace normalizes or acknowledges any message with 0-based
index strictly greater than `k`. -/
def idxOver (k : Nat) : List Ev → Bool
  | [] => false
  | Ev.normalize j :: tr => decide (k < j) || idxOver k tr
  | Ev.complete j :: tr => decide (k < j) || idxOver k tr
  | _ :: tr => idxOver k tr

/-- The per-message loop shared by both poll cycles:
`for (const message of receivedMessages) do parseMessage; completeMessage; emit`.
Returns the emitted trace and `false` when a `completeMessage` call raised
(aborting the remainder of the batch before that message is emitted). -/
def processMsgs (parse : ServiceBusReceivedMessage → NormalizedMessage)
    (ackOk : Nat → Bool) : List ServiceBusReceivedMessage → Nat → List Ev × Bool
  | [], _ => ([], true)
  | m :: rest, idx =>
    if ackOk idx then
      let r := processMsgs parse ackOk rest (idx + 1)
      (Ev.normalize idx :: Ev.complete idx :: Ev.emit (parse m) :: r.1, r.2)
    else
      ([Ev.normalize idx, Ev.complete idx], false)

namespace Queue

/-- Embedding of `parseMessage` in `serviceBusQueue.ts` lines 140-171:
decode the body to a string, attempt `JSON.parse` with a raw-string
fallback, and default every absent metadata field. -/
def parseMessage (message : ServiceBusReceivedMessage) : NormalizedMessage :=
  let rawBody := rawBodyString message.body
  let body :=
    match Json.jsonParse rawBody with
    | some v => v
    | none => JsonVal.str rawBody
  { body := body
    rawBody := some rawBody
    messageId := message.messageId.getD ""
    enqueuedTime := message.enqueuedTimeUtc.getD ""
    sequenceNumber := (message.sequenceNumber.map (fun n => toString n)).getD ""
    contentType := message.contentType.getD ""
    correlationId := message.correlationId.getD ""
    applicationProperties := message.applicationProperties.getD [] }

end Queue

namespace ConnStr

/-- Embedding of `parseMessage` in the connection-string subscription
variant (`serviceBusSubscription.ts` lines 235-264), textually identical to
the queue reader's. -/
def parseMessage (message : ServiceBusReceivedMessage) : NormalizedMessage :=
  let rawBody := rawBodyString message.body
  let body :=
    match Json.jsonParse rawBody with
    | some v => v
    | none => JsonVal.str rawBody
  { body := body
    rawBody := some rawBody
    messageId := message.messageId.getD ""
    enqueuedTime := message.enqueuedTimeUtc.getD ""
    sequenceNumber := (message.sequenceNumber.map (fun n => toString n)).getD ""
    contentType := message.contentType.getD ""
    correlationId := message.correlationId.getD ""
    applicationProperties := message.applicationProperties.getD [] }

/-- Result of the connection-string variant's `onSync` (lines 51-92). -/
structure SyncResult where
  newStatus : Status
  customStatusDescription : Option String
  signalLastCheck : Option String
  signalLastReceived : Option String
  trace : List Ev

/-- Embedding of `onSync` (lines 51-92): open a client and receiver, peek
one message, close the receiver and the client inside the try, read the
stored timestamps, and return `ready` with signal updates; any raise inside
the try is caught and reported as `failed` with the error's message.  The
finally block closes the client again (when it was assigned) and swallows a
close failure. -/
def onSync (env : Env) (kv0 : KVState) : SyncResult :=
  if ¬ env.newClientOk then
    { newStatus := .failed, customStatusDescription := some env.errorMessage,
      signalLastCheck := none, signalLastReceived := none, trace := [] }
  else if ¬ env.createReceiverOk then
    { newStatus := .failed, customStatusDescription := some env.errorMessage,
      signalLastCheck := none, signalLastReceived := none,
      trace := Ev.openClient :: finallyTrace env }
  else if ¬ env.peekOk then
    { newStatus := .failed, customStatusDescription := some env.errorMessage,
      signalLastCheck := none, signalLastReceived := none,
      trace := [Ev.openClient, Ev.peek 1] ++ finallyTrace env }
  else if ¬ env.receiverCloseOk then
    { newStatus := .failed, customStatusDescription := some env.errorMessage,
      signalLastCheck := none, signalLastReceived := none,
      trace := [Ev.openClient, Ev.peek 1, Ev.closeReceiver] ++ finallyTrace env }
  else if ¬ env.clientCloseTryOk then
    { newStatus := .failed, customStatusDescription := some env.errorMessage,
      signalLastCheck := none, signalLastReceived := none,
      trace := [Ev.openClient, Ev.peek 1, Ev.closeReceiver, Ev.closeClient] ++ finallyTrace env }
  else if ¬ env.kvOk then
    { newStatus := .failed, customStatusDescription := some env.errorMessage,
      signalLastCheck := none, signalLastReceived := none,
      trace := [Ev.openClient, Ev.peek 1, Ev.closeReceiver, Ev.closeClient, Ev.kvGet] ++ finallyTrace env }
  else
    { newStatus := .ready, customStatusDescription := none,
      signalLastCheck := kv0.lastCheckTime,
      signalLastReceived := kv0.lastMessageReceivedTime,
      trace := [Ev.openClient, Ev.peek 1, Ev.closeReceiver, Ev.closeClient, Ev.kvGet] ++ finallyTrace env }

/-- Result of `onDrain` (lines 94-104). -/
structure DrainResult where
  newStatus : Status
  kv : KVState

/-- Embedding of `onDrain` (lines 94-104): delete both KV keys and return
`drained` with null signal updates. -/
def onDrain : DrainResult :=
  { newStatus := .drained
    kv := { lastCheckTime := none, lastMessageReceivedTime := none } }

/-- Result of one scheduled trigger invocation of the connection-string
variant: the event trace, the KV state after the cycle, and whether the
catch handler ran. -/
structure TrigResult where
  trace : List Ev
  kv : KVState
  outcome : Outcome

/-- The ready-path body of the poll `onTrigger` (lines 128-180): open,
receive up to `maxMessages || 10`, set `lastCheckTime`, and when the batch
is non-empty set `lastMessageReceivedTime` and run the per-message loop;
any raise jumps to the catch, which sets `lastCheckTime` again and requests
a lifecycle sync; the finally closes the client (when assigned), swallowing
a close failure. -/
def pollCycle (cfg : Config) (env : Env)
    (checkTime receiveTime : String) (kv0 : KVState) : TrigResult :=
    let maxMessages := jsOr cfg.maxMessages 10
    if ¬ env.newClientOk then
      { trace := [Ev.kvSetCheck checkTime, Ev.requestSync],
        kv := { kv0 with lastCheckTime := some checkTime }, outcome := .error }
    else if ¬ env.createReceiverOk then
      { trace := [Ev.openClient, Ev.kvSetCheck checkTime, Ev.requestSync] ++ finallyTrace env,
        kv := { kv0 with lastCheckTime := some checkTime }, outcome := .error }
    else if ¬ env.receiveOk then
      { trace := [Ev.openClient, Ev.receive maxMessages, Ev.kvSetCheck checkTime,
          Ev.requestSync] ++ finallyTrace env,
        kv := { kv0 with lastCheckTime := some checkTime }, outcome := .error }
    else
      let kv1 : KVState := { kv0 with lastCheckTime := some checkTime }
      if env.msgs.isEmpty then
        if env.receiverCloseOk then
          { trace := [Ev.openClient, Ev.receive maxMessages, Ev.kvSetCheck checkTime,
              Ev.closeReceiver] ++ finallyTrace env,
            kv := kv1, outcome := .ok }
        else
          { trace := [Ev.openClient, Ev.receive maxMessages, Ev.kvSetCheck checkTime,
              Ev.closeReceiver, Ev.kvSetCheck checkTime, Ev.requestSync] ++ finallyTrace env,
            kv := kv1, outcome := .error }
      else
        let kv2 : KVState := { kv1 with lastMessageReceivedTime := some receiveTime }
        let pm := processMsgs parseMessage env.ackOk env.msgs 0
        if pm.2 then
          if env.receiverCloseOk then
            { trace := [Ev.openClient, Ev.receive maxMessages, Ev.kvSetCheck checkTime,
                Ev.kvSetReceived receiveTime] ++ pm.1 ++ [Ev.closeReceiver] ++ finallyTrace env,
              kv := kv2, outcome := .ok }
          else
            { trace := [Ev.openClient, Ev.receive maxMessages, Ev.kvSetCheck checkTime,
                Ev.kvSetReceived receiveTime] ++ pm.1
                ++ [Ev.closeReceiver, Ev.kvSetCheck checkTime, Ev.requestSync] ++ finallyTrace env,
              kv := kv2, outcome := .error }
        else
          { trace := [Ev.openClient, Ev.receive maxMessages, Ev.kvSetCheck checkTime,
              Ev.kvSetReceived receiveTime] ++ pm.1
              ++ [Ev.kvSetCheck checkTime, Ev.requestSync] ++ finallyTrace env,
            kv := kv2, outcome := .error }

/-- Embedding of the status guards of `onTrigger` (lines 114-126): a
`failed` status only requests a lifecycle sync, any other non-ready status
returns immediately, and only `ready` runs the poll cycle. -/
def onTrigger (status : String) (cfg : Config) (env : Env)
    (checkTime receiveTime : String) (kv0 : KVState) : TrigResult :=
  if status = "failed" then { trace := [Ev.requestSync], kv := kv0, outcome := .ok }
  else if status ≠ "ready" then { trace := [], kv := kv0, outcome := .ok }
  else pollCycle cfg env checkTime receiveTime kv0

/-- All steps inside the probe's try succeed (so `onSync` reports ready). -/
def probeOk (env : Env) : Bool :=
  env.newClientOk && env.createReceiverOk && env.peekOk && env.receiverCloseOk
    && env.clientCloseTryOk && env.kvOk

end ConnStr

namespace TokenAuth

/-- Embedding of `parseMessage` in the token-auth subscription variant
(`serviceBusSubscription.ts` lines 465-484): a Buffer body is decoded as
UTF-8, any other body passes through unchanged; no JSON parsing is
attempted and no `rawBody` field is produced. -/
def parseMessage (message : ServiceBusReceivedMessage) : NormalizedMessage :=
  let body :=
    match message.body with
    | .buf decoded => JsonVal.str decoded
    | .str s => JsonVal.str s
    | .structured v => v
  { body := body
    rawBody := none
    messageId := message.messageId.getD ""
    enqueuedTime := message.enqueuedTimeUtc.getD ""
    sequenceNumber := (message.sequenceNumber.map (fun n => toString n)).getD ""
    contentType := message.contentType.getD ""
    correlationId := message.correlationId.getD ""
    applicationProperties := message.applicationProperties.getD [] }

/-- The warning guard in `onSync` (lines 306-310):
`maxMessages !== undefined && maxMessages > 2047`. -/
def warnNeeded (cfg : Config) : Bool :=
  match cfg.maxMessages with
  | some m => decide (2047 < m)
  | none => false

/-- Result of the token-auth variant's `onSync` (lines 302-349). -/
structure SyncResult where
  newStatus : Status
  customStatusDescription : Option String
  trace : List Ev

/-- Embedding of `onSync` (lines 302-349): log the clamp warning when the
configured `maxMessages` exceeds 2047, then open a client and receiver,
peek one message, close the receiver, and return `ready`; any raise inside
the try is caught and reported as `failed` with a diagnostic message.  The
finally closes the client (when assigned), swallowing a close failure. -/
def onSync (cfg : Config) (env : Env) : SyncResult :=
  let warnTr := if warnNeeded cfg then [Ev.logWarning] else []
  if ¬ env.newClientOk then
    { newStatus := .failed, customStatusDescription := some env.errorMessage,
      trace := warnTr }
  else if ¬ env.createReceiverOk then
    { newStatus := .failed, customStatusDescription := some env.errorMessage,
      trace := warnTr ++ Ev.openClient :: finallyTrace env }
  else if ¬ env.peekOk then
    { newStatus := .failed, customStatusDescription := some env.errorMessage,
      trace := warnTr ++ [Ev.openClient, Ev.peek 1] ++ finallyTrace env }
  else if ¬ env.receiverCloseOk then
    { newStatus := .failed, customStatusDescription := some env.errorMessage,
      trace := warnTr ++ [Ev.openClient, Ev.peek 1, Ev.closeReceiver] ++ finallyTrace env }
  else
    { newStatus := .ready, customStatusDescription := none,
      trace := warnTr ++ [Ev.openClient, Ev.peek 1, Ev.closeReceiver] ++ finallyTrace env }

/-- Embedding of `onDrain` (lines 351-355). -/
def onDrain : Status := .drained

/-- Result of one scheduled trigger invocation of the token-auth variant
(no KV state; `outcome = error` means the catch ran, which in this variant
also rethrows the error to the host). -/
structure TrigResult where
  trace : List Ev
  outcome : Outcome

/-- The ready-path body of the poll `onTrigger` (lines 379-414): identical
structure to the connection-string one, except there is no KV state,
`maxMessages` is clamped with `Math.min(_, 2047)`, and the catch requests a
lifecycle sync and then rethrows. -/
def pollCycle (cfg : Config) (env : Env) : TrigResult :=
    let maxMessages := min (jsOr cfg.maxMessages 10) 2047
    if ¬ env.newClientOk then
      { trace := [Ev.requestSync], outcome := .error }
    else if ¬ env.createReceiverOk then
      { trace := Ev.openClient :: Ev.requestSync :: finallyTrace env, outcome := .error }
    else if ¬ env.receiveOk then
      { trace := [Ev.openClient, Ev.receive maxMessages, Ev.requestSync] ++ finallyTrace env,
        outcome := .error }
    else
      let pm := processMsgs parseMessage env.ackOk env.msgs 0
      if pm.2 then
        if env.receiverCloseOk then
          { trace := [Ev.openClient, Ev.receive maxMessages] ++ pm.1
              ++ [Ev.closeReceiver] ++ finallyTrace env,
            outcome := .ok }
        else
          { trace := [Ev.openClient, Ev.receive maxMessages] ++ pm.1
              ++ [Ev.closeReceiver, Ev.requestSync] ++ finallyTrace env,
            outcome := .error }
      else
        { trace := [Ev.openClient, Ev.receive maxMessages] ++ pm.1
            ++ [Ev.requestSync] ++ finallyTrace env,
          outcome := .error }

/-- Embedding of the status guards of `onTrigger` (lines 365-377). -/
def onTrigger (status : String) (cfg : Config) (env : Env) : TrigResult :=
  if status = "failed" then { trace := [Ev.requestSync], outcome := .ok }
  else if status ≠ "ready" then { trace := [], outcome := .ok }
  else pollCycle cfg env

/-- All steps inside the probe's try succeed (so `onSync` reports ready). -/
def probeOk (env : Env) : Bool :=
  env.newClientOk && env.createReceiverOk && env.peekOk && env.receiverCloseOk

end TokenAuth

/-- Lifecycle driving events: a health probe with its outcome, or a drain
request. -/
inductive LcEvent where
  | probe (ok : Bool)
  | drain

/-- Lifecycle state machine.  The `ready`/`failed` rows follow the status
the embedded `onSync` handlers return for a probe outcome, and the `drain`
row follows `onDrain`.  Modelled from the spec for the part outside the
block's own code: per spec section 4.5 `drained` is terminal for the
lifetime of the block instance — the host delivers no further probe or
drain events to a drained block — so every event leaves `drained`
unchanged. -/
def lifecycleStep : Status → LcEvent → Status
  | Status.drained, _ => Status.drained
  | _, LcEvent.probe ok => if ok then Status.ready else Status.failed
  | _, LcEvent.drain => Status.drained

/-- Rendering of a lifecycle status as the string `onTrigger` compares
against. -/
def statusStr : Status → String
  | Status.ready => "ready"
  | Status.failed => "failed"
  | Status.drained => "drained"

/-- Predicate: the event is a client open. -/
def evIsOpen : Ev → Bool
  | Ev.openClient => true
  | _ => false

/-- Predicate: the event is a client close invocation. -/
def evIsClose : Ev → Bool
  | Ev.closeClient => true
  | _ => false

/-- Predicate: the event is the logging of a swallowed close failure. -/
def evIsCloseFail : Ev → Bool
  | Ev.closeFailLogged => true
  | _ => false

/-- Predicate: the event is a `completeMessage` (acknowledgment) call. -/
def evIsComplete : Ev → Bool
  | Ev.complete _ => true
  | _ => false

/-- Predicate: the event is a `receiveMessages` call. -/
def evIsReceive : Ev → Bool
  | Ev.receive _ => true
  | _ => false

/-- Predicate: the event is the clamp warning log. -/
def evIsWarn : Ev → Bool
  | Ev.logWarning => true
  | _ => false

/-- Arguments of the `peekMessages` calls in a trace, in order. -/
def peekArgsOf : List Ev → List Nat
  | [] => []
  | Ev.peek n :: tr => n :: peekArgsOf tr
  | _ :: tr => peekArgsOf tr

/-- A raw message with only a body and every optional field absent. -/
def mBodyOnly (b : RawBody) : ServiceBusReceivedMessage :=
  { body := b, messageId := none, enqueuedTimeUtc := none, sequenceNumber := none,
    contentType := none, correlationId := none, applicationProperties := none }

/-- A block configuration with both optional numbers absent. -/
def cfgDefault : Config :=
  { queueName := "q", maxMessages := none, receiveTimeoutSeconds := none }

/-- A block configuration with `maxMessages` set to 5000. -/
def cfg5000 : Config :=
  { queueName := "q", maxMessages := some 5000, receiveTimeoutSeconds := none }

/-- Empty persisted consumer state. -/
def kvEmpty : KVState := { lastCheckTime := none, lastMessageReceivedTime := none }

/-- An environment in which every provider call succeeds and the queue is
empty. -/
def envAllOk : Env :=
  { newClientOk := true, createReceiverOk := true, peekOk := true, peeked := [],
    receiveOk := true, msgs := [], ackOk := fun _ => true, receiverCloseOk := true,
    clientCloseTryOk := true, clientCloseOk := true, kvOk := true, errorMessage := "" }

/-- A concrete raw message fixture. -/
def msgA : ServiceBusReceivedMessage := mBodyOnly (RawBody.str "hello")

/-- An all-succeeding environment delivering three messages where
acknowledgment raises on the second (0-based index 1). -/
def envAckFail : Env :=
  { envAllOk with msgs := [msgA, msgA, msgA], ackOk := fun j => decide (j < 1) }

/-- An all-succeeding environment delivering two messages. -/
def envTwoMsgs : Env := { envAllOk with msgs := [msgA, msgA] }

/-- An otherwise all-succeeding empty-queue environment in which the
in-cycle receiver close raises. -/
def envCloseFail : Env := { envAllOk with receiverCloseOk := false }

/-- An otherwise all-succeeding environment in which the probe's peek
raises with the diagnostic "peek failed". -/
def envPeekFail : Env := { envAllOk with peekOk := false, errorMessage := "peek failed" }

theorem connStr_onTrigger_ready (cfg : Config) (env : Env) (ct rt : String) (kv0 : KVState) :
    ConnStr.onTrigger "ready" cfg env ct rt kv0 = ConnStr.pollCycle cfg env ct rt kv0 := by
  unfold ConnStr.onTrigger
  rw [if_neg (by decide), if_neg (by decide)]

theorem tokenAuth_onTrigger_ready (cfg : Config) (env : Env) :
    TokenAuth.onTrigger "ready" cfg env = TokenAuth.pollCycle cfg env := by
  unfold TokenAuth.onTrigger
  rw [if_neg (by decide), if_neg (by decide)]

theorem countEv_append (p : Ev → Bool) (l1 l2 : List Ev) :
    countEv p (l1 ++ l2) = countEv p l1 + countEv p l2 := by
  induction l1 with
  | nil => simp [countEv]
  | cons e tr ih => simp [countEv, ih]; ring

theorem emittedOf_append (l1 l2 : List Ev) :
    emittedOf (l1 ++ l2) = emittedOf l1 ++ emittedOf l2 := by
  induction l1 with
  | nil => simp [emittedOf]
  | cons e tr ih => cases e <;> simp [emittedOf, ih]

theorem receiveArgsOf_append (l1 l2 : List Ev) :
    receiveArgsOf (l1 ++ l2) = receiveArgsOf l1 ++ receiveArgsOf l2 := by
  induction l1 with
  | nil => simp [receiveArgsOf]
  | cons e tr ih => cases e <;> simp [receiveArgsOf, ih]

theorem idxOver_append (k : Nat) (l1 l2 : List Ev) :
    idxOver k (l1 ++ l2) = (idxOver k l1 || idxOver k l2) := by
  induction l1 with
  | nil => simp [idxOver]
  | cons e tr ih => cases e <;> simp [idxOver, ih, Bool.or_assoc]

theorem processMsgs_allOk (parse : ServiceBusReceivedMessage → NormalizedMessage)
    (ackOk : Nat → Bool) (h : ∀ j, ackOk j = true) :
    ∀ (msgs : List ServiceBusReceivedMessage) (idx : Nat),
      (processMsgs parse ackOk msgs idx).2 = true
      ∧ emittedOf (processMsgs parse ackOk msgs idx).1 = msgs.map parse := by
  intro msgs
  induction msgs with
  | nil => intro idx; simp [processMsgs, emittedOf]
  | cons m rest ih =>
    intro idx
    have := ih (idx + 1)
    simp [processMsgs, h idx, emittedOf, this.1, this.2]

theorem processMsgs_fail (parse : ServiceBusReceivedMessage → NormalizedMessage)
    (ackOk : Nat → Bool) :
    ∀ (msgs : List ServiceBusReceivedMessage) (idx i : Nat), i < msgs.length →
      (∀ j, j < i → ackOk (idx + j) = true) → ackOk (idx + i) = false →
      (processMsgs parse ackOk msgs idx).2 = false
      ∧ emittedOf (processMsgs parse ackOk msgs idx).1 = (msgs.take i).map parse
      ∧ idxOver (idx + i) (processMsgs parse ackOk msgs idx).1 = false := by
  intro msgs
  induction msgs with
  | nil => intro idx i hi; exact absurd hi (by simp)
  | cons m rest ih =>
    intro idx i hi hpre hfail
    cases i with
    | zero =>
      have h0 : ackOk idx = false := by simpa using hfail
      simp [processMsgs, h0, emittedOf, idxOver]
    | succ i' =>
      have h0 : ackOk idx = true := by simpa using hpre 0 (Nat.succ_pos i')
      have hpre' : ∀ j, j < i' → ackOk (idx + 1 + j) = true := by
        intro j hj
        have := hpre (j + 1) (by omega)
        simpa [Nat.add_assoc, Nat.add_comm 1 j] using this
      have hfail' : ackOk (idx + 1 + i') = false := by
        have : idx + 1 + i' = idx + (i' + 1) := by omega
        rw [this]; exact hfail
      have hlen : i' < rest.length := by simpa using hi
      have hrec := ih (idx + 1) i' hlen hpre' hfail'
      have harith : idx + 1 + i' = idx + (i' + 1) := by omega
      refine ⟨?_, ?_, ?_⟩
      · simp [processMsgs, h0, hrec.1]
      · simp [processMsgs, h0, emittedOf, hrec.2.1]
      · have hle1 : ¬ (idx + (i' + 1) < idx) := by omega
        have := hrec.2.2
        rw [harith] at this
        simp [processMsgs, h0, idxOver, hle1, this]

theorem countEv_processMsgs (p : Ev → Bool)
    (hn : ∀ i, p (Ev.normalize i) = false) (hc : ∀ i, p (Ev.complete i) = false)
    (he : ∀ m, p (Ev.emit m) = false)
    (parse : ServiceBusReceivedMessage → NormalizedMessage) (ackOk : Nat → Bool) :
    ∀ (msgs : List ServiceBusReceivedMessage) (idx : Nat),
      countEv p (processMsgs parse ackOk msgs idx).1 = 0 := by
  intro msgs
  induction msgs with
  | nil => intro idx; simp [processMsgs, countEv]
  | cons m rest ih =>
    intro idx
    by_cases h : ackOk idx = true
    · simp [processMsgs, h, countEv, hn, hc, he, ih (idx + 1)]
    · simp at h
      simp [processMsgs, h, countEv, hn, hc, he]

theorem receiveArgsOf_processMsgs (parse : ServiceBusReceivedMessage → NormalizedMessage)
    (ackOk : Nat → Bool) :
    ∀ (msgs : List ServiceBusReceivedMessage) (idx : Nat),
      receiveArgsOf (processMsgs parse ackOk msgs idx).1 = [] := by
  intro msgs
  induction msgs with
  | nil => intro idx; simp [processMsgs, receiveArgsOf]
  | cons m rest ih =>
    intro idx
    by_cases h : ackOk idx = true
    · simp [processMsgs, h, receiveArgsOf, ih (idx + 1)]
    · simp at h
      simp [processMsgs, h, receiveArgsOf]

theorem connStr_onTrigger_failed (cfg : Config) (env : Env) (ct rt : String) (kv0 : KVState) :
    ConnStr.onTrigger "failed" cfg env ct rt kv0
      = { trace := [Ev.requestSync], kv := kv0, outcome := Outcome.ok } := by
  unfold ConnStr.onTrigger
  rw [if_pos rfl]

theorem connStr_onTrigger_skip (s : String) (h1 : s ≠ "ready") (h2 : s ≠ "failed")
    (cfg : Config) (env : Env) (ct rt : String) (kv0 : KVState) :
    ConnStr.onTrigger s cfg env ct rt kv0
      = { trace := [], kv := kv0, outcome := Outcome.ok } := by
  unfold ConnStr.onTrigger
  rw [if_neg h2, if_pos h1]

theorem tokenAuth_onTrigger_failed (cfg : Config) (env : Env) :
    TokenAuth.onTrigger "failed" cfg env
      = { trace := [Ev.requestSync], outcome := Outcome.ok } := by
  unfold TokenAuth.onTrigger
  rw [if_pos rfl]

theorem tokenAuth_onTrigger_skip (s : String) (h1 : s ≠ "ready") (h2 : s ≠ "failed")
    (cfg : Config) (env : Env) :
    TokenAuth.onTrigger s cfg env = { trace := [], outcome := Outcome.ok } := by
  unfold TokenAuth.onTrigger
  rw [if_neg h2, if_pos h1]

/-- C2, counterexample.  The claim quantifies over `parseMessage` including
the token-auth variant (`serviceBusSubscription.ts` lines 465-484), but
that variant performs no JSON parsing: for the message whose body is the
string "[1,2]" — a valid JSON text — its `parseMessage` leaves `body` as
the unparsed string rather than the parsed JSON array. -/
theorem C2_cex :
    Json.jsonParse "[1,2]" = some (JsonVal.arr [JsonVal.num 1, JsonVal.num 2])
    ∧ (TokenAuth.parseMessage (mBodyOnly (RawBody.str "[1,2]"))).body
        = JsonVal.str "[1,2]"
    ∧ JsonVal.str "[1,2]" ≠ JsonVal.arr [JsonVal.num 1, JsonVal.num 2] := by
  refine ⟨rfl, rfl, fun h => JsonVal.noConfusion h⟩

/-- C2 (amended).  The JSON-parsing contract holds for the queue reader's
`parseMessage` and the connection-string subscription's `parseMessage`:
when the decoded body is valid JSON, `body` is the parsed value and
`rawBody` is the original pre-parse string; when it is not, `body` is the
decoded string unchanged (and `rawBody` still the same string).  The
token-auth subscription's `parseMessage` exposes no `rawBody` and performs
no JSON parsing: a string body is passed through unchanged even when it is
valid JSON text. -/
theorem C2_normalize (m : ServiceBusReceivedMessage) :
    (∀ v, Json.jsonParse (rawBodyString m.body) = some v →
      (Queue.parseMessage m).body = v ∧ (ConnStr.parseMessage m).body = v)
    ∧ (Json.jsonParse (rawBodyString m.body) = none →
      (Queue.parseMessage m).body = JsonVal.str (rawBodyString m.body)
      ∧ (ConnStr.parseMessage m).body = JsonVal.str (rawBodyString m.body))
    ∧ (Queue.parseMessage m).rawBody = some (rawBodyString m.body)
    ∧ (ConnStr.parseMessage m).rawBody = some (rawBodyString m.body)
    ∧ (TokenAuth.parseMessage m).rawBody = none
    ∧ (∀ s, m.body = RawBody.str s →
        (TokenAuth.parseMessage m).body = JsonVal.str s) := by
  refine ⟨?_, ?_, rfl, rfl, rfl, ?_⟩
  · intro v h
    constructor <;> simp [Queue.parseMessage, ConnStr.parseMessage, h]
  · intro h
    constructor <;> simp [Queue.parseMessage, ConnStr.parseMessage, h]
  · intro s h
    simp [TokenAuth.parseMessage, h]

/-- C2, witness for the amended theorem at the message whose body is the
valid JSON text "[1,2]". -/
theorem C2_witness :
    (Queue.parseMessage (mBodyOnly (RawBody.str "[1,2]"))).body
      = JsonVal.arr [JsonVal.num 1, JsonVal.num 2]
    ∧ (Queue.parseMessage (mBodyOnly (RawBody.str "oops["))).body
      = JsonVal.str "oops[" := by
  constructor
  · exact ((C2_normalize (mBodyOnly (RawBody.str "[1,2]"))).1
      (JsonVal.arr [JsonVal.num 1, JsonVal.num 2]) rfl).1
  · exact ((C2_normalize (mBodyOnly (RawBody.str "oops["))).2.1 rfl).1

/-- C5.  Normalization is total by construction (the embedded
`parseMessage` is a total function whose only fallible step, `JSON.parse`,
is wrapped in the raw-string fallback) and substitutes the empty string for
each absent optional string field and the empty mapping for absent
`applicationProperties`, for any body shape — for both the queue reader's
and the connection-string subscription's `parseMessage`. -/
theorem C5_defaults (m : ServiceBusReceivedMessage) :
    ((m.messageId = none → (Queue.parseMessage m).messageId = "")
      ∧ (m.enqueuedTimeUtc = none → (Queue.parseMessage m).enqueuedTime = "")
      ∧ (m.sequenceNumber = none → (Queue.parseMessage m).sequenceNumber = "")
      ∧ (m.contentType = none → (Queue.parseMessage m).contentType = "")
      ∧ (m.correlationId = none → (Queue.parseMessage m).correlationId = "")
      ∧ (m.applicationProperties = none → (Queue.parseMessage m).applicationProperties = []))
    ∧ ((m.messageId = none → (ConnStr.parseMessage m).messageId = "")
      ∧ (m.enqueuedTimeUtc = none → (ConnStr.parseMessage m).enqueuedTime = "")
      ∧ (m.sequenceNumber = none → (ConnStr.parseMessage m).sequenceNumber = "")
      ∧ (m.contentType = none → (ConnStr.parseMessage m).contentType = "")
      ∧ (m.correlationId = none → (ConnStr.parseMessage m).correlationId = "")
      ∧ (m.applicationProperties = none → (ConnStr.parseMessage m).applicationProperties = [])) := by
  refine ⟨⟨?_, ?_, ?_, ?_, ?_, ?_⟩, ⟨?_, ?_, ?_, ?_, ?_, ?_⟩⟩ <;>
    (intro h; simp [Queue.parseMessage, ConnStr.parseMessage, h])

/-- C5, witness at a message with every optional field absent and a
structured body. -/
theorem C5_witness :
    (Queue.parseMessage (mBodyOnly (RawBody.structured JsonVal.null))).messageId = ""
    ∧ (Queue.parseMessage (mBodyOnly (RawBody.structured JsonVal.null))).applicationProperties = []
    ∧ (ConnStr.parseMessage (mBodyOnly (RawBody.structured JsonVal.null))).sequenceNumber = "" := by
  refine ⟨?_, ?_, ?_⟩
  · exact (C5_defaults (mBodyOnly (RawBody.structured JsonVal.null))).1.1 rfl
  · exact (C5_defaults (mBodyOnly (RawBody.structured JsonVal.null))).1.2.2.2.2.2 rfl
  · exact (C5_defaults (mBodyOnly (RawBody.structured JsonVal.null))).2.2.2.1 rfl

/-- C4.  The lifecycle state machine: a failing probe in `ready` moves to
`failed`; a succeeding probe in `failed` moves to `ready` (both embedded
`onSync` handlers return exactly `ready` on a fully successful probe and
`failed` otherwise, whatever the current state); `drained` is terminal
(per spec section 4.5 the host delivers no further lifecycle events to a
drained block, so no event leaves it); and a scheduled trigger in status
`drained` performs no action at all in either variant. -/
theorem C4_lifecycle_machine :
    lifecycleStep Status.ready (LcEvent.probe false) = Status.failed
    ∧ lifecycleStep Status.failed (LcEvent.probe true) = Status.ready
    ∧ (∀ e, lifecycleStep Status.drained e = Status.drained)
    ∧ (∀ env kv0, (ConnStr.onSync env kv0).newStatus
        = (if ConnStr.probeOk env then Status.ready else Status.failed))
    ∧ (∀ cfg env, (TokenAuth.onSync cfg env).newStatus
        = (if TokenAuth.probeOk env then Status.ready else Status.failed))
    ∧ (∀ cfg env ct rt kv0,
        (ConnStr.onTrigger (statusStr Status.drained) cfg env ct rt kv0).trace = []
        ∧ (ConnStr.onTrigger (statusStr Status.drained) cfg env ct rt kv0).kv = kv0)
    ∧ (∀ cfg env, (TokenAuth.onTrigger (statusStr Status.drained) cfg env).trace = [])
    ∧ ConnStr.onDrain.newStatus = Status.drained
    ∧ TokenAuth.onDrain = Status.drained := by
  refine ⟨rfl, rfl, fun e => by cases e <;> rfl, ?_, ?_, ?_, ?_, rfl, rfl⟩
  · intro env kv0
    rcases env with ⟨nc, cr, pk, pkd, ro, ms, ack, rc, cct, cc, kvo, em⟩
    cases nc <;> cases cr <;> cases pk <;> cases rc <;> cases cct <;> cases kvo <;>
      simp [ConnStr.onSync, ConnStr.probeOk]
  · intro cfg env
    rcases env with ⟨nc, cr, pk, pkd, ro, ms, ack, rc, cct, cc, kvo, em⟩
    cases nc <;> cases cr <;> cases pk <;> cases rc <;>
      simp [TokenAuth.onSync, TokenAuth.probeOk]
  · intro cfg env ct rt kv0
    rw [show statusStr Status.drained = "drained" from rfl,
      connStr_onTrigger_skip "drained" (by decide) (by decide)]
    exact ⟨rfl, rfl⟩
  · intro cfg env
    rw [show statusStr Status.drained = "drained" from rfl,
      tokenAuth_onTrigger_skip "drained" (by decide) (by decide)]

/-- C10.  A scheduled trigger whose current status is not `ready` opens no
connection and receives, acknowledges, or emits nothing: in status `failed`
the entire trace is a single lifecycle re-probe request, and in any other
non-ready status the invocation is a no-op leaving the KV state unchanged
— in both variants. -/
theorem C10_not_ready_no_io (s : String) (cfg : Config) (env : Env)
    (ct rt : String) (kv0 : KVState) :
    (s = "failed" →
      (ConnStr.onTrigger s cfg env ct rt kv0).trace = [Ev.requestSync]
      ∧ (ConnStr.onTrigger s cfg env ct rt kv0).kv = kv0
      ∧ (TokenAuth.onTrigger s cfg env).trace = [Ev.requestSync])
    ∧ (s ≠ "ready" → s ≠ "failed" →
      (ConnStr.onTrigger s cfg env ct rt kv0).trace = []
      ∧ (ConnStr.onTrigger s cfg env ct rt kv0).kv = kv0
      ∧ (TokenAuth.onTrigger s cfg env).trace = []) := by
  constructor
  · rintro rfl
    rw [connStr_onTrigger_failed, tokenAuth_onTrigger_failed]
    exact ⟨rfl, rfl, rfl⟩
  · intro h1 h2
    rw [connStr_onTrigger_skip s h1 h2, tokenAuth_onTrigger_skip s h1 h2]
    exact ⟨rfl, rfl, rfl⟩

/-- C10, witness at the statuses `drained` and `failed`. -/
theorem C10_witness :
    (ConnStr.onTrigger "drained" cfgDefault envAllOk "t" "t" kvEmpty).trace = []
    ∧ (ConnStr.onTrigger "failed" cfgDefault envAllOk "t" "t" kvEmpty).trace
        = [Ev.requestSync] := by
  constructor
  · exact ((C10_not_ready_no_io "drained" cfgDefault envAllOk "t" "t" kvEmpty).2
      (by decide) (by decide)).1
  · exact ((C10_not_ready_no_io "failed" cfgDefault envAllOk "t" "t" kvEmpty).1 rfl).1

theorem emittedOf_finallyTrace (env : Env) : emittedOf (finallyTrace env) = [] := by
  cases h : env.clientCloseOk <;> simp [finallyTrace, h, emittedOf]

theorem idxOver_finallyTrace (k : Nat) (env : Env) :
    idxOver k (finallyTrace env) = false := by
  cases h : env.clientCloseOk <;> simp [finallyTrace, h, idxOver]

theorem receiveArgsOf_finallyTrace (env : Env) :
    receiveArgsOf (finallyTrace env) = [] := by
  cases h : env.clientCloseOk <;> simp [finallyTrace, h, receiveArgsOf]

theorem peekArgsOf_finallyTrace (env : Env) : peekArgsOf (finallyTrace env) = [] := by
  cases h : env.clientCloseOk <;> simp [finallyTrace, h, peekArgsOf]

theorem countEv_finallyTrace_zero (p : Ev → Bool) (h1 : p Ev.closeClient = false)
    (h2 : p Ev.closeFailLogged = false) (env : Env) :
    countEv p (finallyTrace env) = 0 := by
  cases h : env.clientCloseOk <;> simp [finallyTrace, h, countEv, h1, h2]

theorem closeCount_finallyTrace (env : Env) :
    countEv evIsClose (finallyTrace env) = 1 := by
  cases h : env.clientCloseOk <;> simp [finallyTrace, h, countEv, evIsClose]

theorem emittedOf_closeTail (b : Bool) :
    emittedOf (if b = true then [] else [Ev.closeFailLogged]) = [] := by
  cases b <;> simp [emittedOf]

theorem idxOver_closeTail (k : Nat) (b : Bool) :
    idxOver k (if b = true then [] else [Ev.closeFailLogged]) = false := by
  cases b <;> simp [idxOver]

theorem receiveArgsOf_closeTail (b : Bool) :
    receiveArgsOf (if b = true then [] else [Ev.closeFailLogged]) = [] := by
  cases b <;> simp [receiveArgsOf]

theorem peekArgsOf_closeTail (b : Bool) :
    peekArgsOf (if b = true then [] else [Ev.closeFailLogged]) = [] := by
  cases b <;> simp [peekArgsOf]

theorem countEv_closeTail (p : Ev → Bool) (h2 : p Ev.closeFailLogged = false) (b : Bool) :
    countEv p (if b = true then [] else [Ev.closeFailLogged]) = 0 := by
  cases b <;> simp [countEv, h2]

theorem closeCount_processMsgs (parse : ServiceBusReceivedMessage → NormalizedMessage)
    (ackOk : Nat → Bool) (msgs : List ServiceBusReceivedMessage) (idx : Nat) :
    countEv evIsClose (processMsgs parse ackOk msgs idx).1 = 0 :=
  countEv_processMsgs evIsClose (fun _ => rfl) (fun _ => rfl) (fun _ => rfl) parse ackOk msgs idx

theorem openCount_processMsgs (parse : ServiceBusReceivedMessage → NormalizedMessage)
    (ackOk : Nat → Bool) (msgs : List ServiceBusReceivedMessage) (idx : Nat) :
    countEv evIsOpen (processMsgs parse ackOk msgs idx).1 = 0 :=
  countEv_processMsgs evIsOpen (fun _ => rfl) (fun _ => rfl) (fun _ => rfl) parse ackOk msgs idx

theorem closeFailCount_processMsgs (parse : ServiceBusReceivedMessage → NormalizedMessage)
    (ackOk : Nat → Bool) (msgs : List ServiceBusReceivedMessage) (idx : Nat) :
    countEv evIsCloseFail (processMsgs parse ackOk msgs idx).1 = 0 :=
  countEv_processMsgs evIsCloseFail (fun _ => rfl) (fun _ => rfl) (fun _ => rfl) parse ackOk msgs idx

/-- C1.  In a ready-status poll cycle that opens and receives successfully,
if acknowledgment succeeds on the first `i` messages (0-based indices
`0..i-1`, i.e. the claim's messages 1..i-1 in 1-based counting together
with its failing message being the (i+1)-st here) and `completeMessage`
raises on index `i`, then exactly the first `i` messages have been emitted,
in order; no message with a larger index is normalized or acknowledged; the
cycle outcome is `error`; and `lastCheckTime` is still updated to the
cycle's check timestamp.  Both subscription variants behave this way (the
token-auth variant has no KV state, so the timestamp conjunct applies to
the connection-string variant). -/
theorem C1_ack_failure (cfg : Config) (env : Env) (ct rt : String) (kv0 : KVState)
    (i : Nat) (hnc : env.newClientOk = true) (hcr : env.createReceiverOk = true)
    (hro : env.receiveOk = true) (hi : i < env.msgs.length)
    (hpre : ∀ j, j < i → env.ackOk j = true) (hfail : env.ackOk i = false) :
    emittedOf (ConnStr.onTrigger "ready" cfg env ct rt kv0).trace
      = (env.msgs.take i).map ConnStr.parseMessage
    ∧ idxOver i (ConnStr.onTrigger "ready" cfg env ct rt kv0).trace = false
    ∧ (ConnStr.onTrigger "ready" cfg env ct rt kv0).outcome = Outcome.error
    ∧ (ConnStr.onTrigger "ready" cfg env ct rt kv0).kv.lastCheckTime = some ct
    ∧ emittedOf (TokenAuth.onTrigger "ready" cfg env).trace
      = (env.msgs.take i).map TokenAuth.parseMessage
    ∧ idxOver i (TokenAuth.onTrigger "ready" cfg env).trace = false
    ∧ (TokenAuth.onTrigger "ready" cfg env).outcome = Outcome.error := by
  rw [connStr_onTrigger_ready, tokenAuth_onTrigger_ready]
  have hpre0 : ∀ j, j < i → env.ackOk (0 + j) = true := by
    intro j hj; simpa using hpre j hj
  have hfail0 : env.ackOk (0 + i) = false := by simpa using hfail
  have hC := processMsgs_fail ConnStr.parseMessage env.ackOk env.msgs 0 i hi hpre0 hfail0
  have hT := processMsgs_fail TokenAuth.parseMessage env.ackOk env.msgs 0 i hi hpre0 hfail0
  rw [Nat.zero_add] at hC hT
  have hne : env.msgs.isEmpty = false := by
    cases hm : env.msgs with
    | nil => rw [hm] at hi; simp at hi
    | cons a l => rfl
  have hrunC : ConnStr.pollCycle cfg env ct rt kv0 =
      { trace := [Ev.openClient, Ev.receive (jsOr cfg.maxMessages 10), Ev.kvSetCheck ct,
            Ev.kvSetReceived rt] ++ (processMsgs ConnStr.parseMessage env.ackOk env.msgs 0).1
            ++ [Ev.kvSetCheck ct, Ev.requestSync] ++ finallyTrace env,
        kv := { lastCheckTime := some ct, lastMessageReceivedTime := some rt },
        outcome := Outcome.error } := by
    simp only [ConnStr.pollCycle]
    rw [if_neg (by simp [hnc]), if_neg (by simp [hcr]), if_neg (by simp [hro]),
      if_neg (by simp [hne]), if_neg (by simp [hC.1])]
  have hrunT : TokenAuth.pollCycle cfg env =
      { trace := [Ev.openClient, Ev.receive (min (jsOr cfg.maxMessages 10) 2047)]
            ++ (processMsgs TokenAuth.parseMessage env.ackOk env.msgs 0).1
            ++ [Ev.requestSync] ++ finallyTrace env,
        outcome := Outcome.error } := by
    simp only [TokenAuth.pollCycle]
    rw [if_neg (by simp [hnc]), if_neg (by simp [hcr]), if_neg (by simp [hro]),
      if_neg (by simp [hT.1])]
  refine ⟨?_, ?_, ?_, ?_, ?_, ?_, ?_⟩
  · simp [hrunC, emittedOf_append, emittedOf, emittedOf_finallyTrace, emittedOf_closeTail, hC.2.1]
  · simp [hrunC, idxOver_append, idxOver, idxOver_finallyTrace, idxOver_closeTail, hC.2.2]
  · simp [hrunC]
  · simp [hrunC]
  · simp [hrunT, emittedOf_append, emittedOf, emittedOf_finallyTrace, emittedOf_closeTail, hT.2.1]
  · simp [hrunT, idxOver_append, idxOver, idxOver_finallyTrace, idxOver_closeTail, hT.2.2]
  · simp [hrunT]

/-- C3.  A ready-status poll cycle of the connection-string variant that
opens and receives successfully, receives at least one message, and
acknowledges every message emits exactly the normalized messages of the
batch, in receipt order, and updates both `lastCheckTime` and
`lastMessageReceivedTime` (the token-auth variant emits the same batch;
it keeps no timestamps). -/
theorem C3_all_acked (cfg : Config) (env : Env) (ct rt : String) (kv0 : KVState)
    (hnc : env.newClientOk = true) (hcr : env.createReceiverOk = true)
    (hro : env.receiveOk = true) (hne : env.msgs ≠ [])
    (hack : ∀ j, env.ackOk j = true) :
    emittedOf (ConnStr.onTrigger "ready" cfg env ct rt kv0).trace
      = env.msgs.map ConnStr.parseMessage
    ∧ (ConnStr.onTrigger "ready" cfg env ct rt kv0).kv.lastCheckTime = some ct
    ∧ (ConnStr.onTrigger "ready" cfg env ct rt kv0).kv.lastMessageReceivedTime = some rt
    ∧ emittedOf (TokenAuth.onTrigger "ready" cfg env).trace
      = env.msgs.map TokenAuth.parseMessage := by
  rw [connStr_onTrigger_ready, tokenAuth_onTrigger_ready]
  have hC := processMsgs_allOk ConnStr.parseMessage env.ackOk hack env.msgs 0
  have hT := processMsgs_allOk TokenAuth.parseMessage env.ackOk hack env.msgs 0
  have hie : env.msgs.isEmpty = false := by
    cases hm : env.msgs with
    | nil => exact absurd hm hne
    | cons a l => rfl
  by_cases hrc : env.receiverCloseOk = true
  · have hrunC : ConnStr.pollCycle cfg env ct rt kv0 =
        { trace := [Ev.openClient, Ev.receive (jsOr cfg.maxMessages 10), Ev.kvSetCheck ct,
              Ev.kvSetReceived rt] ++ (processMsgs ConnStr.parseMessage env.ackOk env.msgs 0).1
              ++ [Ev.closeReceiver] ++ finallyTrace env,
          kv := { lastCheckTime := some ct, lastMessageReceivedTime := some rt },
          outcome := Outcome.ok } := by
      simp only [ConnStr.pollCycle]
      rw [if_neg (by simp [hnc]), if_neg (by simp [hcr]), if_neg (by simp [hro]),
        if_neg (by simp [hie]), if_pos (by simp [hC.1]), if_pos (by simp [hrc])]
    have hrunT : TokenAuth.pollCycle cfg env =
        { trace := [Ev.openClient, Ev.receive (min (jsOr cfg.maxMessages 10) 2047)]
              ++ (processMsgs TokenAuth.parseMessage env.ackOk env.msgs 0).1
              ++ [Ev.closeReceiver] ++ finallyTrace env,
          outcome := Outcome.ok } := by
      simp only [TokenAuth.pollCycle]
      rw [if_neg (by simp [hnc]), if_neg (by simp [hcr]), if_neg (by simp [hro]),
        if_pos (by simp [hT.1]), if_pos (by simp [hrc])]
    refine ⟨?_, by simp [hrunC], by simp [hrunC], ?_⟩
    · simp [hrunC, emittedOf_append, emittedOf, emittedOf_finallyTrace, emittedOf_closeTail, hC.2]
    · simp [hrunT, emittedOf_append, emittedOf, emittedOf_finallyTrace, emittedOf_closeTail, hT.2]
  · have hrunC : ConnStr.pollCycle cfg env ct rt kv0 =
        { trace := [Ev.openClient, Ev.receive (jsOr cfg.maxMessages 10), Ev.kvSetCheck ct,
              Ev.kvSetReceived rt] ++ (processMsgs ConnStr.parseMessage env.ackOk env.msgs 0).1
              ++ [Ev.closeReceiver, Ev.kvSetCheck ct, Ev.requestSync] ++ finallyTrace env,
          kv := { lastCheckTime := some ct, lastMessageReceivedTime := some rt },
          outcome := Outcome.error } := by
      simp only [ConnStr.pollCycle]
      rw [if_neg (by simp [hnc]), if_neg (by simp [hcr]), if_neg (by simp [hro]),
        if_neg (by simp [hie]), if_pos (by simp [hC.1]), if_neg (by simp [hrc])]
    have hrunT : TokenAuth.pollCycle cfg env =
        { trace := [Ev.openClient, Ev.receive (min (jsOr cfg.maxMessages 10) 2047)]
              ++ (processMsgs TokenAuth.parseMessage env.ackOk env.msgs 0).1
              ++ [Ev.closeReceiver, Ev.requestSync] ++ finallyTrace env,
          outcome := Outcome.error } := by
      simp only [TokenAuth.pollCycle]
      rw [if_neg (by simp [hnc]), if_neg (by simp [hcr]), if_neg (by simp [hro]),
        if_pos (by simp [hT.1]), if_neg (by simp [hrc])]
    refine ⟨?_, by simp [hrunC], by simp [hrunC], ?_⟩
    · simp [hrunC, emittedOf_append, emittedOf, emittedOf_finallyTrace, emittedOf_closeTail, hC.2]
    · simp [hrunT, emittedOf_append, emittedOf, emittedOf_finallyTrace, emittedOf_closeTail, hT.2]

/-- C1, witness: three received messages, acknowledgment fails on the
second, exactly the first is emitted and the cycle errors with
`lastCheckTime` updated. -/
theorem C1_witness :
    emittedOf (ConnStr.onTrigger "ready" cfgDefault envAckFail "t1" "t2" kvEmpty).trace
      = [ConnStr.parseMessage msgA]
    ∧ (ConnStr.onTrigger "ready" cfgDefault envAckFail "t1" "t2" kvEmpty).outcome
      = Outcome.error
    ∧ (ConnStr.onTrigger "ready" cfgDefault envAckFail "t1" "t2" kvEmpty).kv.lastCheckTime
      = some "t1" := by
  have h := C1_ack_failure cfgDefault envAckFail "t1" "t2" kvEmpty 1 rfl rfl rfl
    (by decide) (fun j hj => by simp only [envAckFail]; exact decide_eq_true hj) rfl
  exact ⟨h.1.trans rfl, h.2.2.1, h.2.2.2.1⟩

/-- C3, witness: two received messages, all acknowledged, both emitted in
order and both timestamps updated. -/
theorem C3_witness :
    emittedOf (ConnStr.onTrigger "ready" cfgDefault envTwoMsgs "t1" "t2" kvEmpty).trace
      = [ConnStr.parseMessage msgA, ConnStr.parseMessage msgA]
    ∧ (ConnStr.onTrigger "ready" cfgDefault envTwoMsgs "t1" "t2" kvEmpty).kv.lastCheckTime
      = some "t1"
    ∧ (ConnStr.onTrigger "ready" cfgDefault envTwoMsgs "t1" "t2" kvEmpty).kv.lastMessageReceivedTime
      = some "t2" := by
  have h := C3_all_acked cfgDefault envTwoMsgs "t1" "t2" kvEmpty rfl rfl rfl
    (by simp [envTwoMsgs, envAllOk]) (fun j => rfl)
  exact ⟨h.1.trans rfl, h.2.1, h.2.2.1⟩

/-- C8, counterexample.  A poll cycle in which `receive` returns an empty
batch but the subsequent in-cycle `receiver.close()` raises ends in the
catch handler: the cycle outcome is `error`, not `ok`, contradicting the
claim's unconditional `ok` for empty batches. -/
theorem C8_cex :
    envCloseFail.receiveOk = true ∧ envCloseFail.msgs = []
    ∧ (ConnStr.onTrigger "ready" cfgDefault envCloseFail "t1" "t2" kvEmpty).outcome
        = Outcome.error := ⟨rfl, rfl, rfl⟩

/-- C8 (amended).  A ready-status poll cycle that opens and receives
successfully and gets an empty batch emits nothing, attempts no
acknowledgment, updates `lastCheckTime`, and leaves
`lastMessageReceivedTime` unchanged; its outcome is `ok` provided the
in-cycle receiver close does not raise (if that close raises, the same
frame conditions hold but the outcome is `error`). -/
theorem C8_empty_batch (cfg : Config) (env : Env) (ct rt : String) (kv0 : KVState)
    (hnc : env.newClientOk = true) (hcr : env.createReceiverOk = true)
    (hro : env.receiveOk = true) (hmt : env.msgs = []) :
    (env.receiverCloseOk = true →
      (ConnStr.onTrigger "ready" cfg env ct rt kv0).outcome = Outcome.ok)
    ∧ emittedOf (ConnStr.onTrigger "ready" cfg env ct rt kv0).trace = []
    ∧ countEv evIsComplete (ConnStr.onTrigger "ready" cfg env ct rt kv0).trace = 0
    ∧ (ConnStr.onTrigger "ready" cfg env ct rt kv0).kv.lastCheckTime = some ct
    ∧ (ConnStr.onTrigger "ready" cfg env ct rt kv0).kv.lastMessageReceivedTime
        = kv0.lastMessageReceivedTime := by
  rw [connStr_onTrigger_ready]
  have hie : env.msgs.isEmpty = true := by rw [hmt]; rfl
  by_cases hrc : env.receiverCloseOk = true
  · have hrun : ConnStr.pollCycle cfg env ct rt kv0 =
        { trace := [Ev.openClient, Ev.receive (jsOr cfg.maxMessages 10), Ev.kvSetCheck ct,
              Ev.closeReceiver] ++ finallyTrace env,
          kv := { kv0 with lastCheckTime := some ct }, outcome := Outcome.ok } := by
      simp only [ConnStr.pollCycle]
      rw [if_neg (by simp [hnc]), if_neg (by simp [hcr]), if_neg (by simp [hro]),
        if_pos hie, if_pos hrc]
    refine ⟨fun _ => by simp [hrun], ?_, ?_, by simp [hrun], by simp [hrun]⟩
    · simp [hrun, emittedOf_append, emittedOf, emittedOf_finallyTrace, emittedOf_closeTail]
    · simp [hrun, countEv_append, countEv, evIsComplete,
        countEv_finallyTrace_zero evIsComplete rfl rfl, countEv_closeTail evIsComplete rfl]
  · have hrun : ConnStr.pollCycle cfg env ct rt kv0 =
        { trace := [Ev.openClient, Ev.receive (jsOr cfg.maxMessages 10), Ev.kvSetCheck ct,
              Ev.closeReceiver, Ev.kvSetCheck ct, Ev.requestSync] ++ finallyTrace env,
          kv := { kv0 with lastCheckTime := some ct }, outcome := Outcome.error } := by
      simp only [ConnStr.pollCycle]
      rw [if_neg (by simp [hnc]), if_neg (by simp [hcr]), if_neg (by simp [hro]),
        if_pos hie, if_neg hrc]
    refine ⟨fun h => absurd h hrc, ?_, ?_, by simp [hrun], by simp [hrun]⟩
    · simp [hrun, emittedOf_append, emittedOf, emittedOf_finallyTrace, emittedOf_closeTail]
    · simp [hrun, countEv_append, countEv, evIsComplete,
        countEv_finallyTrace_zero evIsComplete rfl rfl, countEv_closeTail evIsComplete rfl]

/-- C8, witness: the all-succeeding empty-queue cycle reports `ok`,
updates `lastCheckTime`, and leaves `lastMessageReceivedTime` at its prior
value. -/
theorem C8_witness :
    (ConnStr.onTrigger "ready" cfgDefault envAllOk "t1" "t2" kvEmpty).outcome = Outcome.ok
    ∧ (ConnStr.onTrigger "ready" cfgDefault envAllOk "t1" "t2" kvEmpty).kv.lastCheckTime
        = some "t1"
    ∧ (ConnStr.onTrigger "ready" cfgDefault envAllOk "t1" "t2" kvEmpty).kv.lastMessageReceivedTime
        = none := by
  have h := C8_empty_batch cfgDefault envAllOk "t1" "t2" kvEmpty rfl rfl rfl rfl
  exact ⟨h.1 rfl, h.2.2.2.1, h.2.2.2.2.trans rfl⟩

theorem receiveArgsOf_connStr_pollCycle (cfg : Config) (env : Env) (ct rt : String)
    (kv0 : KVState) (hnc : env.newClientOk = true) (hcr : env.createReceiverOk = true) :
    receiveArgsOf (ConnStr.pollCycle cfg env ct rt kv0).trace
      = [jsOr cfg.maxMessages 10] := by
  simp only [ConnStr.pollCycle]
  rw [if_neg (by simp [hnc]), if_neg (by simp [hcr])]
  by_cases hro : env.receiveOk = true
  · rw [if_neg (by simp [hro])]
    by_cases hie : env.msgs.isEmpty = true
    · rw [if_pos hie]
      by_cases hrc : env.receiverCloseOk = true
      · rw [if_pos hrc]
        simp [receiveArgsOf_append, receiveArgsOf, receiveArgsOf_finallyTrace,
          receiveArgsOf_closeTail]
      · rw [if_neg hrc]
        simp [receiveArgsOf_append, receiveArgsOf, receiveArgsOf_finallyTrace,
          receiveArgsOf_closeTail]
    · rw [if_neg hie]
      by_cases hpm : (processMsgs ConnStr.parseMessage env.ackOk env.msgs 0).2 = true
      · rw [if_pos hpm]
        by_cases hrc : env.receiverCloseOk = true
        · rw [if_pos hrc]
          simp [receiveArgsOf_append, receiveArgsOf, receiveArgsOf_finallyTrace,
            receiveArgsOf_closeTail, receiveArgsOf_processMsgs]
        · rw [if_neg hrc]
          simp [receiveArgsOf_append, receiveArgsOf, receiveArgsOf_finallyTrace,
            receiveArgsOf_closeTail, receiveArgsOf_processMsgs]
      · rw [if_neg hpm]
        simp [receiveArgsOf_append, receiveArgsOf, receiveArgsOf_finallyTrace,
          receiveArgsOf_closeTail, receiveArgsOf_processMsgs]
  · rw [if_pos (by simpa using hro)]
    simp [receiveArgsOf_append, receiveArgsOf, receiveArgsOf_finallyTrace,
      receiveArgsOf_closeTail]

theorem receiveArgsOf_tokenAuth_pollCycle (cfg : Config) (env : Env)
    (hnc : env.newClientOk = true) (hcr : env.createReceiverOk = true) :
    receiveArgsOf (TokenAuth.pollCycle cfg env).trace
      = [min (jsOr cfg.maxMessages 10) 2047] := by
  simp only [TokenAuth.pollCycle]
  rw [if_neg (by simp [hnc]), if_neg (by simp [hcr])]
  by_cases hro : env.receiveOk = true
  · rw [if_neg (by simp [hro])]
    by_cases hpm : (processMsgs TokenAuth.parseMessage env.ackOk env.msgs 0).2 = true
    · rw [if_pos hpm]
      by_cases hrc : env.receiverCloseOk = true
      · rw [if_pos hrc]
        simp [receiveArgsOf_append, receiveArgsOf, receiveArgsOf_finallyTrace,
          receiveArgsOf_closeTail, receiveArgsOf_processMsgs]
      · rw [if_neg hrc]
        simp [receiveArgsOf_append, receiveArgsOf, receiveArgsOf_finallyTrace,
          receiveArgsOf_closeTail, receiveArgsOf_processMsgs]
    · rw [if_neg hpm]
      simp [receiveArgsOf_append, receiveArgsOf, receiveArgsOf_finallyTrace,
        receiveArgsOf_closeTail, receiveArgsOf_processMsgs]
  · rw [if_pos (by simpa using hro)]
    simp [receiveArgsOf_append, receiveArgsOf, receiveArgsOf_finallyTrace,
      receiveArgsOf_closeTail]

theorem warnCount_tokenAuth_onSync (cfg : Config) (env : Env) :
    countEv evIsWarn (TokenAuth.onSync cfg env).trace
      = (if TokenAuth.warnNeeded cfg then 1 else 0) := by
  rcases env with ⟨nc, cr, pk, pkd, ro, ms, ack, rc, cct, cc, kvo, em⟩
  by_cases hw : TokenAuth.warnNeeded cfg = true <;>
    cases nc <;> cases cr <;> cases pk <;> cases rc <;> cases cc <;>
      simp [TokenAuth.onSync, hw, countEv, countEv_append, evIsWarn, finallyTrace]

/-- C7, counterexample.  The connection-string variant's poll cycle
(`serviceBusSubscription.ts` lines 128-143) performs no clamping: with
`maxMessages` configured as 5000 it passes 5000 — not
`min(5000, 2047) = 2047` — to `receiveMessages`. -/
theorem C7_cex :
    receiveArgsOf (ConnStr.onTrigger "ready" cfg5000 envAllOk "t1" "t2" kvEmpty).trace
      = [5000]
    ∧ ((5000 : Int) = 2047 → False) := ⟨rfl, by decide⟩

/-- C7 (amended).  The token-auth variant's poll cycle clamps: with
`maxMessages` configured above the 2047 provider ceiling it passes exactly
2047 to `receive`, and that variant's probe (`onSync`) logs the clamp
warning exactly when the configured value exceeds 2047.  The
connection-string variant's poll cycle passes the configured value
unclamped. -/
theorem C7_clamp (cfg : Config) (env : Env) (ct rt : String) (kv0 : KVState) (m : Int)
    (hm : cfg.maxMessages = some m) (hgt : 2047 < m)
    (hnc : env.newClientOk = true) (hcr : env.createReceiverOk = true) :
    receiveArgsOf (TokenAuth.onTrigger "ready" cfg env).trace = [2047]
    ∧ countEv evIsWarn (TokenAuth.onSync cfg env).trace = 1
    ∧ receiveArgsOf (ConnStr.onTrigger "ready" cfg env ct rt kv0).trace = [m] := by
  rw [connStr_onTrigger_ready, tokenAuth_onTrigger_ready]
  have hjs : jsOr cfg.maxMessages 10 = m := by
    rw [hm]; simp only [jsOr]; rw [if_neg (by omega)]
  have hmin : min (jsOr cfg.maxMessages 10) 2047 = 2047 := by
    rw [hjs]; exact min_eq_right (by omega)
  have hw : TokenAuth.warnNeeded cfg = true := by
    simp [TokenAuth.warnNeeded, hm]
    omega
  refine ⟨?_, ?_, ?_⟩
  · rw [receiveArgsOf_tokenAuth_pollCycle cfg env hnc hcr, hmin]
  · rw [warnCount_tokenAuth_onSync, if_pos hw]
  · rw [receiveArgsOf_connStr_pollCycle cfg env ct rt kv0 hnc hcr, hjs]

/-- C7, witness at `maxMessages = 5000`. -/
theorem C7_witness :
    receiveArgsOf (TokenAuth.onTrigger "ready" cfg5000 envAllOk).trace = [2047]
    ∧ countEv evIsWarn (TokenAuth.onSync cfg5000 envAllOk).trace = 1 := by
  have h := C7_clamp cfg5000 envAllOk "t1" "t2" kvEmpty 5000 rfl (by decide) rfl rfl
  exact ⟨h.1, h.2.1⟩

/-- C9, counterexample.  The probe can report `failed` even though opening
the session and peeking both succeeded: in an environment where only the
in-probe `receiver.close()` raises, the token-auth `onSync` still returns
`failed`, refuting the claim's "exactly when opening the session or
peeking raises". -/
theorem C9_cex :
    envCloseFail.newClientOk = true ∧ envCloseFail.createReceiverOk = true
    ∧ envCloseFail.peekOk = true
    ∧ (TokenAuth.onSync cfgDefault envCloseFail).newStatus = Status.failed :=
  ⟨rfl, rfl, rfl, rfl⟩

/-- C9 (amended).  Both probes perform no `receive` and no `completeMessage`
call, peek exactly one message (whenever the client and receiver were
created), and their result is entirely independent of what the peek
returned — in particular an empty queue still yields `ready`.  The probe
returns `failed` exactly when some step of its guarded region raises —
opening the client, creating the receiver, peeking, or the in-probe closes
(and, in the connection-string variant, the stored-timestamp read) — and
then carries the raising step's diagnostic message. -/
theorem C9_probe (cfg : Config) (env : Env) (kv0 : KVState)
    (p : List ServiceBusReceivedMessage) :
    countEv evIsReceive (TokenAuth.onSync cfg env).trace = 0
    ∧ countEv evIsComplete (TokenAuth.onSync cfg env).trace = 0
    ∧ countEv evIsReceive (ConnStr.onSync env kv0).trace = 0
    ∧ countEv evIsComplete (ConnStr.onSync env kv0).trace = 0
    ∧ peekArgsOf (TokenAuth.onSync cfg env).trace
        = (if env.newClientOk && env.createReceiverOk then [1] else [])
    ∧ peekArgsOf (ConnStr.onSync env kv0).trace
        = (if env.newClientOk && env.createReceiverOk then [1] else [])
    ∧ TokenAuth.onSync cfg { env with peeked := p } = TokenAuth.onSync cfg env
    ∧ ConnStr.onSync { env with peeked := p } kv0 = ConnStr.onSync env kv0
    ∧ ((TokenAuth.onSync cfg env).newStatus = Status.failed
        ↔ TokenAuth.probeOk env = false)
    ∧ ((TokenAuth.onSync cfg env).newStatus = Status.failed →
        (TokenAuth.onSync cfg env).customStatusDescription = some env.errorMessage)
    ∧ ((ConnStr.onSync env kv0).newStatus = Status.failed
        ↔ ConnStr.probeOk env = false)
    ∧ ((ConnStr.onSync env kv0).newStatus = Status.failed →
        (ConnStr.onSync env kv0).customStatusDescription = some env.errorMessage) := by
  rcases env with ⟨nc, cr, pk, pkd, ro, ms, ack, rc, cct, cc, kvo, em⟩
  by_cases hw : TokenAuth.warnNeeded cfg = true <;>
    cases nc <;> cases cr <;> cases pk <;> cases rc <;> cases cct <;> cases kvo <;> cases cc <;>
      simp [TokenAuth.onSync, ConnStr.onSync, TokenAuth.probeOk, ConnStr.probeOk, hw,
        countEv, countEv_append, evIsReceive, evIsComplete, peekArgsOf, finallyTrace]

/-- C9, witness: the all-succeeding probe with an empty queue reports
`ready`, peeked exactly one message, and performed no receive; and a probe
whose peek raises reports `failed` with its diagnostic. -/
theorem C9_witness :
    countEv evIsReceive (TokenAuth.onSync cfgDefault envAllOk).trace = 0
    ∧ peekArgsOf (TokenAuth.onSync cfgDefault envAllOk).trace = [1]
    ∧ (TokenAuth.onSync cfgDefault envPeekFail).customStatusDescription
        = some "peek failed" := by
  obtain ⟨a1, a2, a3, a4, a5, a6, a7, a8, a9, a10, a11, a12⟩ :=
    C9_probe cfgDefault envAllOk kvEmpty []
  obtain ⟨b1, b2, b3, b4, b5, b6, b7, b8, b9, b10, b11, b12⟩ :=
    C9_probe cfgDefault envPeekFail kvEmpty []
  exact ⟨a1, a5.trans rfl, b10 rfl⟩

theorem closeCount_connStr_pollCycle (cfg : Config) (env : Env) (ct rt : String)
    (kv0 : KVState) :
    countEv evIsClose (ConnStr.pollCycle cfg env ct rt kv0).trace
      = countEv evIsOpen (ConnStr.pollCycle cfg env ct rt kv0).trace := by
  simp only [ConnStr.pollCycle]
  split_ifs <;>
    simp [countEv, countEv_append, evIsClose, evIsOpen, closeCount_finallyTrace,
      countEv_finallyTrace_zero evIsOpen rfl rfl, closeCount_processMsgs,
      openCount_processMsgs, countEv_closeTail evIsOpen rfl, countEv_closeTail evIsClose rfl,
      finallyTrace]

theorem closeCount_tokenAuth_pollCycle (cfg : Config) (env : Env) :
    countEv evIsClose (TokenAuth.pollCycle cfg env).trace
      = countEv evIsOpen (TokenAuth.pollCycle cfg env).trace := by
  simp only [TokenAuth.pollCycle]
  split_ifs <;>
    simp [countEv, countEv_append, evIsClose, evIsOpen, closeCount_finallyTrace,
      countEv_finallyTrace_zero evIsOpen rfl rfl, closeCount_processMsgs,
      openCount_processMsgs, countEv_closeTail evIsOpen rfl, countEv_closeTail evIsClose rfl,
      finallyTrace]

theorem closeCount_tokenAuth_onSync (cfg : Config) (env : Env) :
    countEv evIsClose (TokenAuth.onSync cfg env).trace
      = countEv evIsOpen (TokenAuth.onSync cfg env).trace := by
  simp only [TokenAuth.onSync]
  split_ifs <;>
    simp [countEv, countEv_append, evIsClose, evIsOpen, closeCount_finallyTrace,
      countEv_finallyTrace_zero evIsOpen rfl rfl, countEv_closeTail evIsOpen rfl,
      countEv_closeTail evIsClose rfl, finallyTrace]

theorem closeCount_connStr_onSync (env : Env) (kv0 : KVState) :
    countEv evIsClose (ConnStr.onSync env kv0).trace
      = (if env.newClientOk
          then (if env.createReceiverOk && env.peekOk && env.receiverCloseOk then 2 else 1)
          else 0)
    ∧ countEv evIsOpen (ConnStr.onSync env kv0).trace
      = (if env.newClientOk then 1 else 0) := by
  rcases env with ⟨nc, cr, pk, pkd, ro, ms, ack, rc, cct, cc, kvo, em⟩
  cases nc <;> cases cr <;> cases pk <;> cases rc <;> cases cct <;> cases kvo <;> cases cc <;>
    simp [ConnStr.onSync, countEv, countEv_append, evIsClose, evIsOpen, finallyTrace]

theorem connStr_pollCycle_closeIndep (cfg : Config) (env : Env) (ct rt : String)
    (kv0 : KVState) (b : Bool) :
    (ConnStr.pollCycle cfg { env with clientCloseOk := b } ct rt kv0).outcome
      = (ConnStr.pollCycle cfg env ct rt kv0).outcome
    ∧ (ConnStr.pollCycle cfg { env with clientCloseOk := b } ct rt kv0).kv
      = (ConnStr.pollCycle cfg env ct rt kv0).kv
    ∧ emittedOf (ConnStr.pollCycle cfg { env with clientCloseOk := b } ct rt kv0).trace
      = emittedOf (ConnStr.pollCycle cfg env ct rt kv0).trace := by
  rcases env with ⟨nc, cr, pk, pkd, ro, ms, ack, rc, cct, cc, kvo, em⟩
  simp only [ConnStr.pollCycle]
  split_ifs <;>
    simp [emittedOf_append, emittedOf, emittedOf_finallyTrace, emittedOf_closeTail,
      finallyTrace]

theorem tokenAuth_pollCycle_closeIndep (cfg : Config) (env : Env) (b : Bool) :
    (TokenAuth.pollCycle cfg { env with clientCloseOk := b }).outcome
      = (TokenAuth.pollCycle cfg env).outcome := by
  rcases env with ⟨nc, cr, pk, pkd, ro, ms, ack, rc, cct, cc, kvo, em⟩
  simp only [TokenAuth.pollCycle]
  split_ifs <;> rfl

theorem connStr_onSync_closeIndep (env : Env) (kv0 : KVState) (b : Bool) :
    (ConnStr.onSync { env with clientCloseOk := b } kv0).newStatus
      = (ConnStr.onSync env kv0).newStatus := by
  rcases env with ⟨nc, cr, pk, pkd, ro, ms, ack, rc, cct, cc, kvo, em⟩
  simp only [ConnStr.onSync]
  split_ifs <;> rfl

theorem tokenAuth_onSync_closeIndep (cfg : Config) (env : Env) (b : Bool) :
    (TokenAuth.onSync cfg { env with clientCloseOk := b }).newStatus
      = (TokenAuth.onSync cfg env).newStatus := by
  rcases env with ⟨nc, cr, pk, pkd, ro, ms, ack, rc, cct, cc, kvo, em⟩
  simp only [TokenAuth.onSync]
  split_ifs <;> rfl

/-- C6, counterexample.  On the all-succeeding path of the
connection-string probe, the client is opened once but `close` is invoked
on it twice — once inside the try (line 64) and once again in the finally
block (line 87) — contradicting "close is invoked exactly once per open". -/
theorem C6_cex :
    countEv evIsOpen (ConnStr.onSync envAllOk kvEmpty).trace = 1
    ∧ countEv evIsClose (ConnStr.onSync envAllOk kvEmpty).trace = 2 := ⟨rfl, rfl⟩

/-- C6 (amended).  Per open, `close` is invoked exactly once in both poll
cycles and in the token-auth probe, on every execution path (and never
without an open); the connection-string probe invokes it once on its error
paths but twice on the path that reaches its in-try close — the finally
block always closes again.  The finally block's close failure is logged and
swallowed: it never changes the cycle outcome, the stored KV state, the
emitted messages, or the probe's reported status (a raising in-try close,
by contrast, routes to the error path like any other step). -/
theorem C6_close_per_open (s : String) (cfg : Config) (env : Env) (ct rt : String)
    (kv0 : KVState) (b : Bool) :
    countEv evIsClose (ConnStr.onTrigger s cfg env ct rt kv0).trace
      = countEv evIsOpen (ConnStr.onTrigger s cfg env ct rt kv0).trace
    ∧ countEv evIsClose (TokenAuth.onTrigger s cfg env).trace
      = countEv evIsOpen (TokenAuth.onTrigger s cfg env).trace
    ∧ countEv evIsClose (TokenAuth.onSync cfg env).trace
      = countEv evIsOpen (TokenAuth.onSync cfg env).trace
    ∧ countEv evIsClose (ConnStr.onSync env kv0).trace
      = (if env.newClientOk
          then (if env.createReceiverOk && env.peekOk && env.receiverCloseOk then 2 else 1)
          else 0)
    ∧ countEv evIsOpen (ConnStr.onSync env kv0).trace
      = (if env.newClientOk then 1 else 0)
    ∧ (ConnStr.onTrigger s cfg { env with clientCloseOk := b } ct rt kv0).outcome
      = (ConnStr.onTrigger s cfg env ct rt kv0).outcome
    ∧ (ConnStr.onTrigger s cfg { env with clientCloseOk := b } ct rt kv0).kv
      = (ConnStr.onTrigger s cfg env ct rt kv0).kv
    ∧ emittedOf (ConnStr.onTrigger s cfg { env with clientCloseOk := b } ct rt kv0).trace
      = emittedOf (ConnStr.onTrigger s cfg env ct rt kv0).trace
    ∧ (TokenAuth.onTrigger s cfg { env with clientCloseOk := b }).outcome
      = (TokenAuth.onTrigger s cfg env).outcome
    ∧ (ConnStr.onSync { env with clientCloseOk := b } kv0).newStatus
      = (ConnStr.onSync env kv0).newStatus
    ∧ (TokenAuth.onSync cfg { env with clientCloseOk := b }).newStatus
      = (TokenAuth.onSync cfg env).newStatus
    ∧ countEv evIsCloseFail (finallyTrace env)
      = (if env.clientCloseOk then 0 else 1) := by
  have hTrig : ∀ (e : Env),
      countEv evIsClose (ConnStr.onTrigger s cfg e ct rt kv0).trace
        = countEv evIsOpen (ConnStr.onTrigger s cfg e ct rt kv0).trace
      ∧ countEv evIsClose (TokenAuth.onTrigger s cfg e).trace
        = countEv evIsOpen (TokenAuth.onTrigger s cfg e).trace := by
    intro e
    by_cases hf : s = "failed"
    · subst hf
      rw [connStr_onTrigger_failed, tokenAuth_onTrigger_failed]
      exact ⟨rfl, rfl⟩
    · by_cases hr : s = "ready"
      · subst hr
        rw [connStr_onTrigger_ready, tokenAuth_onTrigger_ready]
        exact ⟨closeCount_connStr_pollCycle cfg e ct rt kv0,
          closeCount_tokenAuth_pollCycle cfg e⟩
      · rw [connStr_onTrigger_skip s hr hf, tokenAuth_onTrigger_skip s hr hf]
        exact ⟨rfl, rfl⟩
  have hIndep : (ConnStr.onTrigger s cfg { env with clientCloseOk := b } ct rt kv0).outcome
        = (ConnStr.onTrigger s cfg env ct rt kv0).outcome
      ∧ (ConnStr.onTrigger s cfg { env with clientCloseOk := b } ct rt kv0).kv
        = (ConnStr.onTrigger s cfg env ct rt kv0).kv
      ∧ emittedOf (ConnStr.onTrigger s cfg { env with clientCloseOk := b } ct rt kv0).trace
        = emittedOf (ConnStr.onTrigger s cfg env ct rt kv0).trace
      ∧ (TokenAuth.onTrigger s cfg { env with clientCloseOk := b }).outcome
        = (TokenAuth.onTrigger s cfg env).outcome := by
    by_cases hf : s = "failed"
    · subst hf
      rw [connStr_onTrigger_failed, connStr_onTrigger_failed,
        tokenAuth_onTrigger_failed, tokenAuth_onTrigger_failed]
      exact ⟨rfl, rfl, rfl, rfl⟩
    · by_cases hr : s = "ready"
      · subst hr
        rw [connStr_onTrigger_ready, connStr_onTrigger_ready,
          tokenAuth_onTrigger_ready, tokenAuth_onTrigger_ready]
        exact ⟨(connStr_pollCycle_closeIndep cfg env ct rt kv0 b).1,
          (connStr_pollCycle_closeIndep cfg env ct rt kv0 b).2.1,
          (connStr_pollCycle_closeIndep cfg env ct rt kv0 b).2.2,
          tokenAuth_pollCycle_closeIndep cfg env b⟩
      · rw [connStr_onTrigger_skip s hr hf, connStr_onTrigger_skip s hr hf,
          tokenAuth_onTrigger_skip s hr hf, tokenAuth_onTrigger_skip s hr hf]
        exact ⟨rfl, rfl, rfl, rfl⟩
  refine ⟨(hTrig env).1, (hTrig env).2, closeCount_tokenAuth_onSync cfg env,
    (closeCount_connStr_onSync env kv0).1, (closeCount_connStr_onSync env kv0).2,
    hIndep.1, hIndep.2.1, hIndep.2.2.1, hIndep.2.2.2,
    connStr_onSync_closeIndep env kv0 b, tokenAuth_onSync_closeIndep cfg env b, ?_⟩
  cases h : env.clientCloseOk <;> simp [finallyTrace, h, countEv, evIsCloseFail]
